import Mathlib

/-!
# Verification of the fivem-playtime-bot access-control core

Shallow embedding of `src/index.js`: the Mongo-backed data model
(`permissionSchema`, `subscriptionSchema`), the `guildCreate` bootstrap
handler, and the `interactionCreate` command handler, followed by theorems
settling the specification's claims about them.

Modelling conventions:
* Timestamps are `Int`, milliseconds since the epoch (a JS `Date`'s value).
* `expiryDate.setDate(expiryDate.getDate() + subscription.duration)` is
  modelled as adding `duration` whole days (`duration * 86400000` ms); the
  spec leaves timezone/DST policy open and recommends UTC whole-day
  granularity, which this is.
* Mongo collections are lists in insertion order; `findOne` is the first
  match; `create` appends a document; `findOneAndDelete` removes the first
  match; `document.save()` writes the mutated document back in place.
* A `findOne` that throws (network/storage failure) is modelled by the
  boolean `dbFail` input of the handler, mirroring the `try/catch` around
  the subscription lookup.
* Required slash-command options (guaranteed present by the command
  registration in the source) are plain fields of `Interaction`.
-/

/-- One document of `permissionSchema`: `guildId`, `userId` (required
strings), `canAddTime`, `canRemoveTime` (booleans, default false). -/
structure Permission where
  guildId : String
  userId : String
  canAddTime : Bool
  canRemoveTime : Bool
  deriving DecidableEq, Repr

/-- One document of `subscriptionSchema`: `guildId` (required string),
`startDate` (Date, default now), `duration` (number of days, default 0). -/
structure Subscription where
  guildId : String
  startDate : Int
  duration : Int
  deriving DecidableEq, Repr

/-- The two Mongo collections backing the bot. -/
structure DB where
  subscriptions : List Subscription
  permissions : List Permission
  deriving DecidableEq, Repr

namespace ERROR_MESSAGES

def unauthorized : String := "You do not have permission to use this command."

def commandNotFound : String := "Command not found."

def invalidParameters : String := "Invalid parameters. Usage: /addtime [steam_hex] [play_time]"

def databaseError : String := "An error occurred while accessing the database."

def permissionDenied : String := "Permission denied. Only the bot owner can use this command."

def subscriptionExpired : String := "Your subscription has expired. Please contact the bot owner to extend the subscription."

def subscriptionNotFound : String := "Subscription not found for this server."

end ERROR_MESSAGES

/-- What `interaction.reply` was called with: a public message, an
ephemeral (caller-only) message, or no reply at all (the handler fell
through every branch, as the stubbed commands do). -/
inductive Reply where
  | msg : String → Reply
  | ephemeral : String → Reply
  | noReply : Reply
  deriving DecidableEq, Repr

/-- An incoming slash-command interaction: command name, caller id, guild
id, and the option values the handlers read (`user`, `addtime`,
`removetime`, `days`). -/
structure Interaction where
  commandName : String
  userId : String
  guildId : String
  optUser : String
  optAddTime : Bool
  optRemoveTime : Bool
  optDays : Int
  deriving DecidableEq, Repr

/-- Milliseconds in one day, the divisor in the `checksubscription`
remaining-days computation. -/
def msPerDay : Int := 1000 * 60 * 60 * 24

/-- `expiryDate`: `startDate` plus `duration` whole days. -/
def expiryOf (s : Subscription) : Int := s.startDate + s.duration * msPerDay

/-- `Subscription.findOne({ guildId })`: first document with that guild id. -/
def findSubscription (db : DB) (gid : String) : Option Subscription :=
  db.subscriptions.find? (fun s => s.guildId == gid)

/-- `Permission.findOne({ guildId, userId })`: first document for the pair. -/
def findPermission (db : DB) (gid uid : String) : Option Permission :=
  db.permissions.find? (fun p => p.guildId == gid && p.userId == uid)

/-- `Permission.findOneAndDelete({ guildId, userId })`: drop the first
document for the pair, no-op when none exists. -/
def deletePermission : List Permission → String → String → List Permission
  | [], _, _ => []
  | p :: rest, gid, uid =>
    if p.guildId == gid && p.userId == uid then rest
    else p :: deletePermission rest gid uid

/-- `subscription.save()` after mutating the fetched document: write the
updated document back over the first one with its guild id. -/
def saveSubscription : List Subscription → String → Subscription → List Subscription
  | [], _, _ => []
  | s :: rest, gid, s2 =>
    if s.guildId == gid then s2 :: rest
    else s :: saveSubscription rest gid s2

/-- The `guildCreate` handler: `Subscription.create({ guildId: guild.id })`
with schema defaults `startDate = now`, `duration = 0`, unconditionally
appending a fresh document. -/
def guildCreate (now : Int) (gid : String) (db : DB) : DB :=
  { db with subscriptions := db.subscriptions ++ [⟨gid, now, 0⟩] }

/-- JS `Math.ceil(a / b)` for integers `a`, `b` with `b > 0` (the code
divides a millisecond difference by `msPerDay`); `/` is `Int.ediv`, which
is floor division for a positive divisor. -/
def jsCeilDiv (a b : Int) : Int := -((-a) / b)

/-- The `checksubscription` computation:
`Math.max(0, Math.ceil((expiryDate - currentDate) / (1000*60*60*24)))`. -/
def remainingDays (expiryDate currentDate : Int) : Int :=
  max 0 (jsCeilDiv (expiryDate - currentDate) msPerDay)

/-- Result of one `interactionCreate` invocation: the reply sent and the
database afterwards. -/
structure HandlerOut where
  reply : Reply
  db : DB
  deriving DecidableEq, Repr

/-- The `interactionCreate` handler of `src/index.js`, lines 66–167.
`ownerId` is the configured `BOT_CREATOR_ID`; `now` is `new Date()`;
`dbFail` says whether the subscription lookup throws. In the source the
command branches are successive `if` blocks, but every non-stub branch
returns and a single `commandName` matches at most one branch, so the
chain below is behaviourally identical; the stub branches (`addtime`,
`listtimes`, `resetplaytime`, `resetallplaytimes`, `removeplaytime`) fall
through to the end, sending no reply and touching nothing. -/
def handleInteraction (ownerId : String) (now : Int) (i : Interaction)
    (dbFail : Bool) (db : DB) : HandlerOut :=
  if dbFail then
    ⟨.ephemeral ERROR_MESSAGES.databaseError, db⟩
  else
    match findSubscription db i.guildId with
    | none => ⟨.ephemeral ERROR_MESSAGES.subscriptionNotFound, db⟩
    | some subscription =>
      let expiryDate := expiryOf subscription
      if now > expiryDate then
        ⟨.ephemeral ERROR_MESSAGES.subscriptionExpired, db⟩
      else if i.commandName == "grantaccess" then
        ⟨.msg "Access granted successfully.",
          { db with permissions :=
              db.permissions ++ [⟨i.guildId, i.optUser, i.optAddTime, i.optRemoveTime⟩] }⟩
      else if i.commandName == "revokeaccess" then
        ⟨.msg "Access revoked successfully.",
          { db with permissions := deletePermission db.permissions i.guildId i.optUser }⟩
      else if i.commandName == "extendtime" then
        if i.userId ≠ ownerId then
          ⟨.ephemeral ERROR_MESSAGES.permissionDenied, db⟩
        else
          let s2 : Subscription :=
            { subscription with duration := subscription.duration + i.optDays }
          ⟨.msg ("Subscription extended by " ++ toString i.optDays ++ " days."),
            { db with subscriptions := saveSubscription db.subscriptions i.guildId s2 }⟩
      else if i.commandName == "checksubscription" then
        ⟨.msg ("Subscription has " ++ toString (remainingDays expiryDate now)
            ++ " days remaining."), db⟩
      else
        ⟨.noReply, db⟩

/-- `hasPermission(guildId, userId)` of `src/index.js` lines 170–173: true
iff a permission document for the pair exists with either flag set. (The
source defines it but never calls it from any handler.) -/
def hasPermission (db : DB) (guildId userId : String) : Bool :=
  match findPermission db guildId userId with
  | some permission => permission.canAddTime || permission.canRemoveTime
  | none => false

/-- Folding a list of `interactionCreate` events (timestamp, interaction)
over the database, each with a non-failing lookup. -/
def runInteractions (ownerId : String) (evs : List (Int × Interaction)) (db : DB) : DB :=
  evs.foldl (fun d e => (handleInteraction ownerId e.1 e.2 false d).db) db

/-- Folding a list of `guildCreate` events (timestamp, guild id) over the
database. -/
def runJoins (joins : List (Int × String)) (db : DB) : DB :=
  joins.foldl (fun d j => guildCreate j.1 j.2 d) db

section BranchLemmas

variable {ownerId : String} {now : Int} {i : Interaction} {db : DB} {s : Subscription}

lemma handle_dbFail :
    handleInteraction ownerId now i true db =
      ⟨.ephemeral ERROR_MESSAGES.databaseError, db⟩ := rfl

lemma handle_notFound (h : findSubscription db i.guildId = none) :
    handleInteraction ownerId now i false db =
      ⟨.ephemeral ERROR_MESSAGES.subscriptionNotFound, db⟩ := by
  unfold handleInteraction
  simp [h]

lemma handle_expired (hfind : findSubscription db i.guildId = some s)
    (h : expiryOf s < now) :
    handleInteraction ownerId now i false db =
      ⟨.ephemeral ERROR_MESSAGES.subscriptionExpired, db⟩ := by
  unfold handleInteraction
  simp [hfind, h]

lemma handle_grant (hfind : findSubscription db i.guildId = some s)
    (hact : now ≤ expiryOf s) (hcmd : i.commandName = "grantaccess") :
    handleInteraction ownerId now i false db =
      ⟨.msg "Access granted successfully.",
        { db with permissions :=
            db.permissions ++ [⟨i.guildId, i.optUser, i.optAddTime, i.optRemoveTime⟩] }⟩ := by
  have hlt : ¬ expiryOf s < now := not_lt.mpr hact
  unfold handleInteraction
  simp [hfind, hlt, hcmd]

lemma handle_revoke (hfind : findSubscription db i.guildId = some s)
    (hact : now ≤ expiryOf s) (hcmd : i.commandName = "revokeaccess") :
    handleInteraction ownerId now i false db =
      ⟨.msg "Access revoked successfully.",
        { db with permissions := deletePermission db.permissions i.guildId i.optUser }⟩ := by
  have hlt : ¬ expiryOf s < now := not_lt.mpr hact
  unfold handleInteraction
  simp [hfind, hlt, hcmd]

lemma handle_extend_nonowner (hfind : findSubscription db i.guildId = some s)
    (hact : now ≤ expiryOf s) (hcmd : i.commandName = "extendtime")
    (hu : i.userId ≠ ownerId) :
    handleInteraction ownerId now i false db =
      ⟨.ephemeral ERROR_MESSAGES.permissionDenied, db⟩ := by
  have hlt : ¬ expiryOf s < now := not_lt.mpr hact
  unfold handleInteraction
  simp [hfind, hlt, hcmd, hu]

lemma handle_extend_owner (hfind : findSubscription db i.guildId = some s)
    (hact : now ≤ expiryOf s) (hcmd : i.commandName = "extendtime")
    (hu : i.userId = ownerId) :
    handleInteraction ownerId now i false db =
      ⟨.msg ("Subscription extended by " ++ toString i.optDays ++ " days."),
        ⟨saveSubscription db.subscriptions i.guildId
          ⟨s.guildId, s.startDate, s.duration + i.optDays⟩, db.permissions⟩⟩ := by
  have hlt : ¬ expiryOf s < now := not_lt.mpr hact
  unfold handleInteraction
  simp [hfind, hlt, hcmd, hu]

lemma handle_check (hfind : findSubscription db i.guildId = some s)
    (hact : now ≤ expiryOf s) (hcmd : i.commandName = "checksubscription") :
    handleInteraction ownerId now i false db =
      ⟨.msg ("Subscription has " ++ toString (remainingDays (expiryOf s) now)
          ++ " days remaining."), db⟩ := by
  have hlt : ¬ expiryOf s < now := not_lt.mpr hact
  unfold handleInteraction
  simp [hfind, hlt, hcmd]

lemma handle_stub (hfind : findSubscription db i.guildId = some s)
    (hact : now ≤ expiryOf s)
    (h1 : i.commandName ≠ "grantaccess") (h2 : i.commandName ≠ "revokeaccess")
    (h3 : i.commandName ≠ "extendtime") (h4 : i.commandName ≠ "checksubscription") :
    handleInteraction ownerId now i false db = ⟨.noReply, db⟩ := by
  have hlt : ¬ expiryOf s < now := not_lt.mpr hact
  unfold handleInteraction
  simp [hfind, hlt, h1, h2, h3, h4]

end BranchLemmas

lemma find_saveSubscription (subs : List Subscription) (gid : String)
    (s s2 : Subscription)
    (h : subs.find? (fun x => x.guildId == gid) = some s) (hgid : s2.guildId = gid) :
    (saveSubscription subs gid s2).find? (fun x => x.guildId == gid) = some s2 := by
  induction subs with
  | nil => simp at h
  | cons a rest ih =>
    by_cases ha : a.guildId = gid
    · simp [saveSubscription, ha, hgid]
    · rw [List.find?_cons_of_neg] at h
      · simp [saveSubscription, ha, ih h]
      · simp [ha]

lemma guildId_of_find (db : DB) (gid : String) (s : Subscription)
    (hfind : findSubscription db gid = some s) : s.guildId = gid := by
  have h := List.find?_some hfind
  exact beq_iff_eq.mp (by simpa using h)

/-- C1 counterexample: with configured owner `owner1`, the caller `u2`
(not the owner) invokes `grantaccess` under an active subscription; the
handler replies with the success message and appends a permission record,
instead of denying with `PermissionDenied` and leaving the store alone. -/
theorem C1_counterexample :
    "u2" ≠ "owner1" ∧
    handleInteraction "owner1" 0 ⟨"grantaccess", "u2", "g", "u3", true, false, 0⟩ false
        ⟨[⟨"g", 0, 1⟩], []⟩
      = ⟨.msg "Access granted successfully.",
          ⟨[⟨"g", 0, 1⟩], [⟨"g", "u3", true, false⟩]⟩⟩ := by
  decide

/-- C1 (amended): the `grantaccess` and `revokeaccess` branches contain no
owner check at all: for every caller — whatever its id, owner or not —
under a found, unexpired subscription, `grantaccess` appends the permission
record and replies success, and `revokeaccess` deletes the first matching
record and replies success. -/
theorem C1_grant_revoke_not_owner_gated (ownerId : String) (now : Int)
    (i : Interaction) (db : DB) (s : Subscription)
    (hfind : findSubscription db i.guildId = some s) (hact : now ≤ expiryOf s) :
    (i.commandName = "grantaccess" →
      handleInteraction ownerId now i false db =
        ⟨.msg "Access granted successfully.",
          ⟨db.subscriptions,
            db.permissions ++ [⟨i.guildId, i.optUser, i.optAddTime, i.optRemoveTime⟩]⟩⟩)
    ∧ (i.commandName = "revokeaccess" →
      handleInteraction ownerId now i false db =
        ⟨.msg "Access revoked successfully.",
          ⟨db.subscriptions, deletePermission db.permissions i.guildId i.optUser⟩⟩) :=
  ⟨fun hcmd => handle_grant hfind hact hcmd,
   fun hcmd => handle_revoke hfind hact hcmd⟩

/-- C1 witness: the amended theorem applied to a concrete non-owner
`revokeaccess` invocation. -/
theorem C1_witness :
    handleInteraction "owner1" 7 ⟨"revokeaccess", "u2", "g", "u3", false, false, 0⟩ false
        ⟨[⟨"g", 0, 1⟩], [⟨"g", "u3", true, true⟩]⟩
      = ⟨.msg "Access revoked successfully.", ⟨[⟨"g", 0, 1⟩], []⟩⟩ :=
  (C1_grant_revoke_not_owner_gated "owner1" 7
      ⟨"revokeaccess", "u2", "g", "u3", false, false, 0⟩
      ⟨[⟨"g", 0, 1⟩], [⟨"g", "u3", true, true⟩]⟩ ⟨"g", 0, 1⟩
      (by decide) (by decide)).2 rfl

/-- C2 counterexample: `grant(g,u,true,false)` then `grant(g,u,false,true)`
leaves two accumulated records for the pair, not one overwritten record. -/
theorem C2_counterexample :
    (handleInteraction "o" 0 ⟨"grantaccess", "o", "g", "u", false, true, 0⟩ false
        (handleInteraction "o" 0 ⟨"grantaccess", "o", "g", "u", true, false, 0⟩ false
          ⟨[⟨"g", 0, 5⟩], []⟩).db).db.permissions
      = [⟨"g", "u", true, false⟩, ⟨"g", "u", false, true⟩] := by
  decide

/-- C2 (amended): `grantaccess` is a plain insert (`Permission.create`),
not an upsert: a second grant for the same pair does not replace the first
record's flags but appends a second record, so both accumulate in insertion
order. -/
theorem C2_grant_inserts_not_upserts (ownerId : String) (t1 t2 : Int)
    (i1 i2 : Interaction) (db : DB) (s : Subscription)
    (hg : i2.guildId = i1.guildId)
    (hfind : findSubscription db i1.guildId = some s)
    (hact1 : t1 ≤ expiryOf s) (hact2 : t2 ≤ expiryOf s)
    (hcmd1 : i1.commandName = "grantaccess") (hcmd2 : i2.commandName = "grantaccess") :
    (handleInteraction ownerId t2 i2 false
        (handleInteraction ownerId t1 i1 false db).db).db.permissions
      = db.permissions ++ [⟨i1.guildId, i1.optUser, i1.optAddTime, i1.optRemoveTime⟩,
          ⟨i2.guildId, i2.optUser, i2.optAddTime, i2.optRemoveTime⟩] := by
  rw [handle_grant hfind hact1 hcmd1]
  rw [handle_grant (by simpa [findSubscription, hg] using hfind) hact2 hcmd2]
  simp

/-- C2 witness: the amended theorem applied to two concrete grants for the
same pair. -/
theorem C2_witness :
    (handleInteraction "o" 1 ⟨"grantaccess", "caller", "g", "u", false, true, 0⟩ false
        (handleInteraction "o" 0 ⟨"grantaccess", "caller", "g", "u", true, false, 0⟩ false
          ⟨[⟨"g", 0, 5⟩], []⟩).db).db.permissions
      = [] ++ [⟨"g", "u", true, false⟩, ⟨"g", "u", false, true⟩] :=
  C2_grant_inserts_not_upserts "o" 0 1
    ⟨"grantaccess", "caller", "g", "u", true, false, 0⟩
    ⟨"grantaccess", "caller", "g", "u", false, true, 0⟩
    ⟨[⟨"g", 0, 5⟩], []⟩ ⟨"g", 0, 5⟩ rfl (by decide) (by decide) (by decide) rfl rfl

/-- C3 counterexample: the owner invokes `extendtime` with `days = -5`
under an active subscription; the handler replies with the success message
and writes `duration = 95` (down from 100) — no `InvalidParameters`
rejection, and `durationDays` changes. -/
theorem C3_counterexample :
    (-5 : Int) ≤ 0 ∧
    handleInteraction "o" 0 ⟨"extendtime", "o", "g", "", false, false, -5⟩ false
        ⟨[⟨"g", 0, 100⟩], []⟩
      = ⟨.msg "Subscription extended by -5 days.", ⟨[⟨"g", 0, 95⟩], []⟩⟩ := by
  decide

/-- C3 (amended): the `extendtime` branch performs no validation of the
`days` option: for every integer `N`, including `N ≤ 0`, an owner
invocation under an active subscription replies with the success message
and stores `duration + N` — the `InvalidParameters` rejection never
happens and `durationDays` does change. -/
theorem C3_no_positive_days_validation (ownerId : String) (now : Int)
    (i : Interaction) (db : DB) (s : Subscription)
    (hfind : findSubscription db i.guildId = some s) (hact : now ≤ expiryOf s)
    (hcmd : i.commandName = "extendtime") (hu : i.userId = ownerId)
    (hN : i.optDays ≤ 0) :
    (handleInteraction ownerId now i false db).reply
        = .msg ("Subscription extended by " ++ toString i.optDays ++ " days.")
    ∧ findSubscription (handleInteraction ownerId now i false db).db i.guildId
        = some ⟨s.guildId, s.startDate, s.duration + i.optDays⟩ := by
  rw [handle_extend_owner hfind hact hcmd hu]
  refine ⟨rfl, ?_⟩
  exact find_saveSubscription db.subscriptions i.guildId s
    ⟨s.guildId, s.startDate, s.duration + i.optDays⟩ hfind
    (guildId_of_find db i.guildId s hfind)

/-- C3 witness: the amended theorem at the concrete input of the
counterexample. -/
theorem C3_witness :
    (handleInteraction "o" 0 ⟨"extendtime", "o", "g", "", false, false, -5⟩ false
        ⟨[⟨"g", 0, 100⟩], []⟩).reply
        = .msg ("Subscription extended by " ++ toString (-5 : Int) ++ " days.")
    ∧ findSubscription (handleInteraction "o" 0
          ⟨"extendtime", "o", "g", "", false, false, -5⟩ false
          ⟨[⟨"g", 0, 100⟩], []⟩).db "g"
        = some ⟨"g", 0, 100 + (-5)⟩ :=
  C3_no_positive_days_validation "o" 0 ⟨"extendtime", "o", "g", "", false, false, -5⟩
    ⟨[⟨"g", 0, 100⟩], []⟩ ⟨"g", 0, 100⟩ rfl (by decide) rfl rfl (by decide)

/-- C4 counterexample: two join notifications for the same guild leave two
Subscription records — bootstrap is not idempotent. -/
theorem C4_counterexample :
    (guildCreate 5 "g" (guildCreate 0 "g" ⟨[], []⟩)).subscriptions
      = [⟨"g", 0, 0⟩, ⟨"g", 5, 0⟩] := by
  decide

/-- C4 (amended): the `guildCreate` handler performs no existence check
and the schema has no uniqueness constraint: every join notification
unconditionally appends a fresh Subscription with `duration = 0` and
`startDate = now`, so a sequence of `n` join notifications adds `n`
records, duplicates included. -/
theorem C4_bootstrap_always_inserts :
    (∀ (now : Int) (gid : String) (db : DB),
        (guildCreate now gid db).subscriptions = db.subscriptions ++ [⟨gid, now, 0⟩])
    ∧ (∀ (joins : List (Int × String)) (db : DB),
        (runJoins joins db).subscriptions.length
          = db.subscriptions.length + joins.length) := by
  refine ⟨fun now gid db => rfl, fun joins => ?_⟩
  induction joins with
  | nil => intro db; rfl
  | cons j rest ih =>
    intro db
    have hstep : runJoins (j :: rest) db = runJoins rest (guildCreate j.1 j.2 db) := rfl
    rw [hstep, ih]
    simp [guildCreate]
    omega

/-- C5: the expiry boundary is inclusive. With a found subscription, at
`now = startDate + duration` whole days the handler does not produce the
`SubscriptionExpired` denial (it proceeds into the command branches), while
at every `now` strictly past the expiry instant it replies
`SubscriptionExpired` and leaves the database untouched. -/
theorem C5_expiry_boundary_inclusive (ownerId : String) (i : Interaction)
    (db : DB) (s : Subscription) (now : Int)
    (hfind : findSubscription db i.guildId = some s) :
    ((handleInteraction ownerId (expiryOf s) i false db).reply
        ≠ .ephemeral ERROR_MESSAGES.subscriptionExpired)
    ∧ (expiryOf s < now →
        handleInteraction ownerId now i false db
          = ⟨.ephemeral ERROR_MESSAGES.subscriptionExpired, db⟩) := by
  constructor
  · by_cases h1 : i.commandName = "grantaccess"
    · rw [handle_grant hfind le_rfl h1]
      simp
    · by_cases h2 : i.commandName = "revokeaccess"
      · rw [handle_revoke hfind le_rfl h2]
        simp
      · by_cases h3 : i.commandName = "extendtime"
        · by_cases hu : i.userId = ownerId
          · rw [handle_extend_owner hfind le_rfl h3 hu]
            simp
          · rw [handle_extend_nonowner hfind le_rfl h3 hu]
            show Reply.ephemeral ERROR_MESSAGES.permissionDenied
                ≠ Reply.ephemeral ERROR_MESSAGES.subscriptionExpired
            decide
        · by_cases h4 : i.commandName = "checksubscription"
          · rw [handle_check hfind le_rfl h4]
            simp
          · rw [handle_stub hfind le_rfl h1 h2 h3 h4]
            simp
  · intro h
    exact handle_expired hfind h

/-- C5 witness: the boundary theorem at a concrete one-day subscription,
evaluated exactly at its expiry instant and one millisecond past it. -/
theorem C5_witness :
    ((handleInteraction "o" (expiryOf ⟨"g", 0, 1⟩)
        ⟨"checksubscription", "u", "g", "", false, false, 0⟩ false
        ⟨[⟨"g", 0, 1⟩], []⟩).reply
      ≠ .ephemeral ERROR_MESSAGES.subscriptionExpired)
    ∧ (expiryOf ⟨"g", 0, 1⟩ < 86400001 →
        handleInteraction "o" 86400001
            ⟨"checksubscription", "u", "g", "", false, false, 0⟩ false
            ⟨[⟨"g", 0, 1⟩], []⟩
          = ⟨.ephemeral ERROR_MESSAGES.subscriptionExpired, ⟨[⟨"g", 0, 1⟩], []⟩⟩) :=
  C5_expiry_boundary_inclusive "o" ⟨"checksubscription", "u", "g", "", false, false, 0⟩
    ⟨[⟨"g", 0, 1⟩], []⟩ ⟨"g", 0, 1⟩ 86400001 rfl

/-- C6: for every command on a guild with no subscription record, the
handler replies `SubscriptionNotFound`; and whenever the subscription
lookup fails at the store, it replies with the database-error message — in
both cases the command is denied and the store untouched, never allowed. -/
theorem C6_absence_and_storage_failure_deny (ownerId : String) (now : Int)
    (i : Interaction) (db : DB) :
    (handleInteraction ownerId now i true db
        = ⟨.ephemeral ERROR_MESSAGES.databaseError, db⟩)
    ∧ (findSubscription db i.guildId = none →
        handleInteraction ownerId now i false db
          = ⟨.ephemeral ERROR_MESSAGES.subscriptionNotFound, db⟩) :=
  ⟨handle_dbFail, fun h => handle_notFound h⟩

/-- C6 witness: at an empty store, both conjuncts at concrete inputs. -/
theorem C6_witness :
    (handleInteraction "o" 3 ⟨"checksubscription", "u", "g", "", false, false, 0⟩ true
        ⟨[], []⟩
      = ⟨.ephemeral ERROR_MESSAGES.databaseError, ⟨[], []⟩⟩)
    ∧ (findSubscription ⟨[], []⟩ "g" = none →
        handleInteraction "o" 3 ⟨"checksubscription", "u", "g", "", false, false, 0⟩ false
            ⟨[], []⟩
          = ⟨.ephemeral ERROR_MESSAGES.subscriptionNotFound, ⟨[], []⟩⟩) :=
  C6_absence_and_storage_failure_deny "o" 3
    ⟨"checksubscription", "u", "g", "", false, false, 0⟩ ⟨[], []⟩

/-- C7: under a found, unexpired subscription, `extendtime` by a caller
other than the configured owner is denied with `PermissionDenied` and the
database is unchanged; by the configured owner with `days = N` it replies
with the success message and the guild's subscription record afterwards
carries `duration + N`. -/
theorem C7_extendtime_owner_gate (ownerId : String) (now : Int) (i : Interaction)
    (db : DB) (s : Subscription)
    (hfind : findSubscription db i.guildId = some s) (hact : now ≤ expiryOf s)
    (hcmd : i.commandName = "extendtime") :
    (i.userId ≠ ownerId →
      handleInteraction ownerId now i false db
        = ⟨.ephemeral ERROR_MESSAGES.permissionDenied, db⟩)
    ∧ (i.userId = ownerId →
      (handleInteraction ownerId now i false db).reply
          = .msg ("Subscription extended by " ++ toString i.optDays ++ " days.")
      ∧ findSubscription (handleInteraction ownerId now i false db).db i.guildId
          = some ⟨s.guildId, s.startDate, s.duration + i.optDays⟩) := by
  refine ⟨fun hu => handle_extend_nonowner hfind hact hcmd hu, fun hu => ?_⟩
  rw [handle_extend_owner hfind hact hcmd hu]
  exact ⟨rfl, find_saveSubscription db.subscriptions i.guildId s
    ⟨s.guildId, s.startDate, s.duration + i.optDays⟩ hfind
    (guildId_of_find db i.guildId s hfind)⟩

/-- C7 witness: the owner-gate theorem at a concrete `extendtime days=10`
invocation by the owner. -/
theorem C7_witness :
    ("x" ≠ "o" →
      handleInteraction "o" 5 ⟨"extendtime", "x", "g", "", false, false, 10⟩ false
          ⟨[⟨"g", 0, 1⟩], []⟩
        = ⟨.ephemeral ERROR_MESSAGES.permissionDenied, ⟨[⟨"g", 0, 1⟩], []⟩⟩)
    ∧ ("o" = "o" →
      (handleInteraction "o" 5 ⟨"extendtime", "o", "g", "", false, false, 10⟩ false
          ⟨[⟨"g", 0, 1⟩], []⟩).reply
          = .msg ("Subscription extended by " ++ toString (10 : Int) ++ " days.")
      ∧ findSubscription (handleInteraction "o" 5
            ⟨"extendtime", "o", "g", "", false, false, 10⟩ false
            ⟨[⟨"g", 0, 1⟩], []⟩).db "g"
          = some ⟨"g", 0, 1 + 10⟩) :=
  ⟨(C7_extendtime_owner_gate "o" 5 ⟨"extendtime", "x", "g", "", false, false, 10⟩
      ⟨[⟨"g", 0, 1⟩], []⟩ ⟨"g", 0, 1⟩ rfl (by decide) rfl).1,
   (C7_extendtime_owner_gate "o" 5 ⟨"extendtime", "o", "g", "", false, false, 10⟩
      ⟨[⟨"g", 0, 1⟩], []⟩ ⟨"g", 0, 1⟩ rfl (by decide) rfl).2⟩

/-- The spec's remaining-days formula (§4.1 Step 4): exact rational
ceiling of `(expiry - now) / 1 day`, clamped to a minimum of 0. Stated
from the spec's words, to be compared with the code's `remainingDays`. -/
def remainingDaysSpec (expiryDate currentDate : Int) : Int :=
  max 0 ⌈((expiryDate - currentDate : Int) : ℚ) / (msPerDay : ℚ)⌉

lemma ceil_div_msPerDay (a : Int) :
    ⌈(a : ℚ) / (msPerDay : ℚ)⌉ = jsCeilDiv a msPerDay := by
  have h1 : (a : ℚ) / (msPerDay : ℚ) = -((((-a : Int)) : ℚ) / ((86400000 : ℕ) : ℚ)) := by
    have hm : ((msPerDay : Int) : ℚ) = ((86400000 : ℕ) : ℚ) := by norm_num [msPerDay]
    rw [hm]
    push_cast
    ring
  rw [h1, Int.ceil_neg, Rat.floor_intCast_div_natCast]
  show -((-a) / ((86400000 : ℕ) : ℤ)) = -((-a) / msPerDay)
  norm_num [msPerDay]

/-- C8: the remaining-days value `checksubscription` reports is exactly
the spec's formula — `Math.max(0, Math.ceil((expiry - now) / msPerDay))`
agrees with `ceil((expiry - now) / 1 day)` clamped to a minimum of 0 at
every pair of timestamps — and under a found, unexpired subscription the
reply text carries that number. -/
theorem C8_remaining_days_formula (ownerId : String) (now : Int) (i : Interaction)
    (db : DB) (s : Subscription)
    (hfind : findSubscription db i.guildId = some s) (hact : now ≤ expiryOf s)
    (hcmd : i.commandName = "checksubscription") :
    (∀ e n : Int, remainingDays e n = remainingDaysSpec e n)
    ∧ (handleInteraction ownerId now i false db).reply
        = .msg ("Subscription has " ++ toString (remainingDaysSpec (expiryOf s) now)
            ++ " days remaining.") := by
  have key : ∀ e n : Int, remainingDays e n = remainingDaysSpec e n := by
    intro e n
    unfold remainingDays remainingDaysSpec
    rw [ceil_div_msPerDay]
  refine ⟨key, ?_⟩
  rw [handle_check hfind hact hcmd, key]

/-- C8 witness: the formula theorem at a two-day subscription checked one
millisecond into its second day (one full day remains, so it reports 1). -/
theorem C8_witness :
    (∀ e n : Int, remainingDays e n = remainingDaysSpec e n)
    ∧ (handleInteraction "o" 86400001
          ⟨"checksubscription", "u", "g", "", false, false, 0⟩ false
          ⟨[⟨"g", 0, 2⟩], []⟩).reply
        = .msg ("Subscription has "
            ++ toString (remainingDaysSpec (expiryOf ⟨"g", 0, 2⟩) 86400001)
            ++ " days remaining.") :=
  C8_remaining_days_formula "o" 86400001
    ⟨"checksubscription", "u", "g", "", false, false, 0⟩
    ⟨[⟨"g", 0, 2⟩], []⟩ ⟨"g", 0, 2⟩ rfl (by decide) rfl

/-- C9 counterexample: under an active subscription with no permission
record at all for the caller, an `addtime` invocation is not denied with
`PermissionDenied`: the stub branch falls through, sending no reply and
changing nothing. -/
theorem C9_counterexample :
    findPermission ⟨[⟨"g", 0, 1⟩], []⟩ "g" "u" = none ∧
    handleInteraction "o" 0 ⟨"addtime", "u", "g", "", false, false, 0⟩ false
        ⟨[⟨"g", 0, 1⟩], []⟩
      = ⟨.noReply, ⟨[⟨"g", 0, 1⟩], []⟩⟩ := by
  decide

/-- C9 (amended): the permission-gated command branches (`addtime`,
`resetplaytime`, `removeplaytime`) are unimplemented stubs: under a found,
unexpired subscription they send no reply and leave the store untouched,
whatever the permission records hold; the helper `hasPermission`, which the
handler never invokes, grants when either flag of the pair's first record
is set rather than testing the action-specific flag. -/
theorem C9_permission_gated_branches_are_stubs (ownerId : String) (now : Int)
    (i : Interaction) (db : DB) (s : Subscription)
    (hfind : findSubscription db i.guildId = some s) (hact : now ≤ expiryOf s)
    (hcmd : i.commandName = "addtime" ∨ i.commandName = "resetplaytime"
      ∨ i.commandName = "removeplaytime") :
    handleInteraction ownerId now i false db = ⟨.noReply, db⟩
    ∧ ∀ (p : Permission), findPermission db i.guildId i.userId = some p →
        hasPermission db i.guildId i.userId = (p.canAddTime || p.canRemoveTime) := by
  constructor
  · rcases hcmd with h | h | h <;>
      exact handle_stub hfind hact (by simp [h]) (by simp [h]) (by simp [h]) (by simp [h])
  · intro p hp
    unfold hasPermission
    rw [hp]

/-- C9 witness: the amended theorem at a concrete `resetplaytime`
invocation by a caller holding a remove-only permission record. -/
theorem C9_witness :
    handleInteraction "o" 0 ⟨"resetplaytime", "u", "g", "v", false, false, 0⟩ false
        ⟨[⟨"g", 0, 1⟩], [⟨"g", "u", false, true⟩]⟩
      = ⟨.noReply, ⟨[⟨"g", 0, 1⟩], [⟨"g", "u", false, true⟩]⟩⟩
    ∧ ∀ (p : Permission),
        findPermission ⟨[⟨"g", 0, 1⟩], [⟨"g", "u", false, true⟩]⟩ "g" "u" = some p →
        hasPermission ⟨[⟨"g", 0, 1⟩], [⟨"g", "u", false, true⟩]⟩ "g" "u"
          = (p.canAddTime || p.canRemoveTime) :=
  C9_permission_gated_branches_are_stubs "o" 0
    ⟨"resetplaytime", "u", "g", "v", false, false, 0⟩
    ⟨[⟨"g", 0, 1⟩], [⟨"g", "u", false, true⟩]⟩ ⟨"g", 0, 1⟩
    rfl (by decide) (Or.inr (Or.inl rfl))

/-- C10: the expiry check runs before every command branch, so an expired
subscription is a trap state: once `now` is strictly past the expiry
instant, every interaction for that guild — `extendtime` by the configured
owner included — is answered with the `SubscriptionExpired` denial and
leaves the database unchanged, and any sequence of such interactions at
times from then on leaves the database exactly as it was, so `duration`
can never change again through bot commands. -/
theorem C10_expired_subscription_is_trap (ownerId g : String) (db : DB)
    (s : Subscription) (t0 : Int)
    (hfind : findSubscription db g = some s) (hexp : expiryOf s < t0) :
    (∀ (now : Int) (i : Interaction), i.guildId = g → t0 ≤ now →
        handleInteraction ownerId now i false db
          = ⟨.ephemeral ERROR_MESSAGES.subscriptionExpired, db⟩)
    ∧ (∀ evs : List (Int × Interaction),
        (∀ e ∈ evs, e.2.guildId = g ∧ t0 ≤ e.1) →
        runInteractions ownerId evs db = db) := by
  have hstep : ∀ (now : Int) (i : Interaction), i.guildId = g → t0 ≤ now →
      handleInteraction ownerId now i false db
        = ⟨.ephemeral ERROR_MESSAGES.subscriptionExpired, db⟩ := by
    intro now i hg hnow
    exact handle_expired (by rw [hg]; exact hfind) (lt_of_lt_of_le hexp hnow)
  refine ⟨hstep, ?_⟩
  intro evs
  induction evs with
  | nil => intro _; rfl
  | cons e rest ih =>
    intro hall
    have h1 := hall e (List.mem_cons_self e rest)
    have hrun : runInteractions ownerId (e :: rest) db
        = runInteractions ownerId rest (handleInteraction ownerId e.1 e.2 false db).db :=
      rfl
    rw [hrun, hstep e.1 e.2 h1.1 h1.2]
    exact ih fun x hx => hall x (List.mem_cons_of_mem e hx)

/-- C10 witness: a freshly-bootstrapped (hence expired) subscription; an
owner `extendtime` then a `grantaccess`, both after expiry, leave the
store exactly as it was. -/
theorem C10_witness :
    runInteractions "o"
        [(10, ⟨"extendtime", "o", "g", "", false, false, 5⟩),
         (11, ⟨"grantaccess", "o", "g", "u", true, true, 0⟩)]
        ⟨[⟨"g", 0, 0⟩], []⟩
      = ⟨[⟨"g", 0, 0⟩], []⟩ :=
  (C10_expired_subscription_is_trap "o" "g" ⟨[⟨"g", 0, 0⟩], []⟩ ⟨"g", 0, 0⟩ 10
      rfl (by decide)).2
    [(10, ⟨"extendtime", "o", "g", "", false, false, 5⟩),
     (11, ⟨"grantaccess", "o", "g", "u", true, true, 0⟩)]
    (by decide)
